import Mathlib

/-!
Shallow embedding of the timeline scheduling and remote-actuation engine of the
soap-bubble-machine dashboard.

Times and motor positions are rationals (seconds / motor steps); the JS `number`
values in the source only ever arise from exact decimal literals and the
arithmetic modelled here, so ℚ is an exact carrier for every quantity the
claims mention.

Sources embedded:
  * `types.ts` (src/unnamed/part_001): `MachineState`, `TimelineBlock`,
    `TimelineTrack`, `SimulationConfig`, `DEFAULT_CONFIG`;
  * `MultiTrackTimeline.tsx` (src/unnamed/part_000): the mount-time cleanup
    effect, `calculateMotorDuration`, and the timeline mutations
    (`handleAddBlock`, `handleDeleteBlock`, `handleChangeAction`,
    `updateBlock`, the drag handler), each of which recomputes `loopDuration`;
  * `App.tsx`: `calculateMovementDuration`, `executeBlock`,
    `sendRemoteCommand`, `stopSimulation`, `toggleRun` (start branch, the
    100 ms playback interval callback, and the per-block timer callbacks).

React `useState` setters are modelled as immediate field updates on an
explicit `AppState` record (together with `isRunningRef`, which the source
keeps in sync with the `isRunning` state), and outbound HTTP requests are
modelled as an emitted list of `Command` values in program order.  That
immediate-update view is only sound within one synchronous handler: a
`setTimeout` callback armed in `toggleRun` closes over the run-start render,
so plain useState reads inside it see the snapshot captured at arming time
and a useState write from one armed callback never reaches another.  Where a
claim turns on exactly this (cross-callback visibility of the cached motor
positions), the armed-callback model `executeBlockTimerCallback` below splits
the state into the captured render snapshot (useState reads) and the live
state (ref reads and setter writes).
-/

-- MachineState is a TS string enum; its values are the literal strings.
namespace MachineState

def IDLE : String := "IDLE"

def DIP : String := "DIP"

def OPEN : String := "OPEN"

def BLOW : String := "BLOW"

def CLOSE : String := "CLOSE"

def HOME : String := "HOME"

def SMOKE_TEST : String := "SMOKE_TEST"

end MachineState

/-- Union type of block kinds: `'motor' | 'fan' | 'smoke'` (types.ts). -/
inductive TimelineBlockType where
  | motor
  | fan
  | smoke
deriving DecidableEq

/-- Union type of track kinds: `'motors' | 'fan' | 'smoke'` (types.ts). -/
inductive TimelineTrackType where
  | motors
  | fan
  | smoke
deriving DecidableEq

/-- The optional per-block configuration payload of a `TimelineBlock`. -/
structure BlockConfig where
  fanSpeed : Option ℚ := none
  smokeIntensity : Option ℚ := none
deriving DecidableEq

/-- One schedulable unit of the timeline (types.ts `TimelineBlock`). -/
structure TimelineBlock where
  id : String
  type : TimelineBlockType
  action : String
  startTime : ℚ
  duration : ℚ
  config : Option BlockConfig := none
deriving DecidableEq

/-- One lane of same-kind blocks (types.ts `TimelineTrack`). -/
structure TimelineTrack where
  id : String
  type : TimelineTrackType
  name : String
  blocks : List TimelineBlock
deriving DecidableEq

/-- The global configuration object (types.ts `SimulationConfig`). -/
structure SimulationConfig where
  dipDuration : ℚ
  liftDuration : ℚ
  blowDuration : ℚ
  closeDuration : ℚ
  fanSpeed : ℚ
  fanEnabled : Bool
  smokeEnabled : Bool
  smokeIntensity : ℚ
  smokeDuration : ℚ
  smokeMidiChannel : ℚ
  smokeMidiCC : ℚ
  motorADipPosition : ℚ
  motorBDipPosition : ℚ
  motorAOpenPosition : ℚ
  motorBOpenPosition : ℚ
  motorAClosePosition : ℚ
  motorBClosePosition : ℚ
  waitAfterOpen : ℚ
  waitAfterClose : ℚ
  waitAfterDip : ℚ
  loopTimeline : List TimelineTrack
  loopDuration : ℚ
deriving DecidableEq

/-- Default configuration (types.ts `DEFAULT_CONFIG`); decimal literals are
written as exact rationals (1.5 = 3/2, 0.5 = 1/2). -/
def DEFAULT_CONFIG : SimulationConfig where
  dipDuration := 5
  liftDuration := 4
  blowDuration := 3
  closeDuration := 3/2
  fanSpeed := 100
  fanEnabled := true
  smokeEnabled := false
  smokeIntensity := 127
  smokeDuration := 3
  smokeMidiChannel := 0
  smokeMidiCC := 1
  motorADipPosition := 200
  motorBDipPosition := -200
  motorAOpenPosition := -400
  motorBOpenPosition := 400
  motorAClosePosition := 200
  motorBClosePosition := -200
  waitAfterOpen := 1
  waitAfterClose := 1
  waitAfterDip := 1
  loopTimeline :=
    [ { id := "track-motors", type := .motors, name := "Motors",
        blocks :=
          [ { id := "m1", type := .motor, action := "OPEN", startTime := 0, duration := 0 },
            { id := "m2", type := .motor, action := "CLOSE", startTime := 2, duration := 0 },
            { id := "m3", type := .motor, action := "DIP", startTime := 4, duration := 0 } ] },
      { id := "track-fan", type := .fan, name := "Fan",
        blocks :=
          [ { id := "f1", type := .fan, action := "start", startTime := 6, duration := 3,
              config := some { fanSpeed := some 100 } },
            { id := "f2", type := .fan, action := "stop", startTime := 9, duration := 0 } ] },
      { id := "track-smoke", type := .smoke, name := "Smoke", blocks := [] } ]
  loopDuration := 10

/-- JS `x || d` on numbers (for the values arising here): `x` is falsy exactly
when it is 0, in which case the default `d` is used. -/
def jsOr (x d : ℚ) : ℚ := if x = 0 then d else x

/-- JS `o?.x || d`: the default is used when the optional chain yields
`undefined` or the number is falsy (0). -/
def jsOrOpt (o : Option ℚ) (d : ℚ) : ℚ :=
  match o with
  | none => d
  | some x => jsOr x d

/-! ### MultiTrackTimeline.tsx — duration estimator used by the editor -/

/-- Movement-duration estimate from the timeline editor
(`calculateMotorDuration`, MultiTrackTimeline.tsx): resolves the target pose
for DIP / OPEN / CLOSE (note: no HOME case in this copy), takes the maximum
per-axis displacement from the cached motor positions, and multiplies by the
per-step delay of 0.002 s.  Unrecognized actions return 0. -/
def calculateMotorDuration (config : SimulationConfig)
    (motorAPosition motorBPosition : ℚ) (action : String) : ℚ :=
  let stepDelay : ℚ := 2/1000
  if action = "DIP" then
    let targetA := jsOr config.motorADipPosition 200
    let targetB := jsOr config.motorBDipPosition (-200)
    max |targetA - motorAPosition| |targetB - motorBPosition| * stepDelay
  else if action = "OPEN" then
    let targetA : ℚ := 0
    let targetB : ℚ := 0
    max |targetA - motorAPosition| |targetB - motorBPosition| * stepDelay
  else if action = "CLOSE" then
    let targetA := jsOr config.motorAClosePosition 200
    let targetB := jsOr config.motorBClosePosition (-200)
    max |targetA - motorAPosition| |targetB - motorBPosition| * stepDelay
  else 0

/-- Effective duration of a block for loop-length purposes (the common body of
every `maxEnd` recomputation in MultiTrackTimeline.tsx): movement estimate plus
stored duration for motor blocks, stored duration alone otherwise. -/
def timelineEffectiveDuration (config : SimulationConfig)
    (motorAPosition motorBPosition : ℚ) (block : TimelineBlock) : ℚ :=
  if block.type = .motor then
    calculateMotorDuration config motorAPosition motorBPosition block.action + block.duration
  else block.duration

/-- The `maxEnd` scan performed after every timeline mutation
(MultiTrackTimeline.tsx): fold over all blocks of all tracks, starting from 0,
keeping the largest `startTime + effective duration`. -/
def computeTimelineMaxEnd (config : SimulationConfig)
    (motorAPosition motorBPosition : ℚ) (timeline : List TimelineTrack) : ℚ :=
  timeline.foldl (fun maxEnd track =>
    track.blocks.foldl (fun maxEnd block =>
      let endTime := block.startTime +
        timelineEffectiveDuration config motorAPosition motorBPosition block
      if maxEnd < endTime then endTime else maxEnd) maxEnd) 0

/-! ### MultiTrackTimeline.tsx — timeline mutations

Each mutation maps the timeline, recomputes `maxEnd` with the scan above, and
stores both in the configuration (`setConfig({...config, loopTimeline,
loopDuration})`). -/

/-- Partial update object passed to `updateBlock` (TS `Partial<TimelineBlock>`). -/
structure BlockUpdates where
  id : Option String := none
  type : Option TimelineBlockType := none
  action : Option String := none
  startTime : Option ℚ := none
  duration : Option ℚ := none
  config : Option (Option BlockConfig) := none
deriving DecidableEq

/-- JS object spread `{ ...block, ...updates }`. -/
def applyBlockUpdates (block : TimelineBlock) (updates : BlockUpdates) : TimelineBlock where
  id := updates.id.getD block.id
  type := updates.type.getD block.type
  action := updates.action.getD block.action
  startTime := updates.startTime.getD block.startTime
  duration := updates.duration.getD block.duration
  config := updates.config.getD block.config

/-- Editor mutation `updateBlock` (MultiTrackTimeline.tsx): spread `updates`
onto the block with the given id, then recompute `loopDuration`. -/
def updateBlock (config : SimulationConfig) (motorAPosition motorBPosition : ℚ)
    (blockId : String) (updates : BlockUpdates) : SimulationConfig :=
  let timeline := config.loopTimeline
  let newTimeline := timeline.map (fun track =>
    { track with blocks := track.blocks.map (fun block =>
        if block.id = blockId then applyBlockUpdates block updates else block) })
  { config with loopTimeline := newTimeline,
                loopDuration := computeTimelineMaxEnd config motorAPosition motorBPosition newTimeline }

/-- Editor mutation `handleAddBlock` (MultiTrackTimeline.tsx).  Returns `none`
when the track id is not found (the handler returns early without mutating).
`newId` stands for the `Date.now().toString()` identifier. -/
def handleAddBlock (config : SimulationConfig) (motorAPosition motorBPosition : ℚ)
    (trackId : String) (trackType : TimelineTrackType) (newId : String) :
    Option SimulationConfig :=
  let timeline := config.loopTimeline
  match timeline.find? (fun t => t.id = trackId) with
  | none => none
  | some track =>
    let startTime : ℚ :=
      match track.blocks.getLast? with
      | none => 0
      | some lastBlock =>
        let lastBlockDuration :=
          if lastBlock.type = .motor then
            calculateMotorDuration config motorAPosition motorBPosition lastBlock.action
              + lastBlock.duration
          else lastBlock.duration
        lastBlock.startTime + lastBlockDuration
    let newBlock : TimelineBlock :=
      match trackType with
      | .motors => { id := newId, type := .motor, action := "OPEN", startTime, duration := 0 }
      | .fan => { id := newId, type := .fan, action := "start", startTime, duration := 3,
                  config := some { fanSpeed := some config.fanSpeed } }
      | .smoke => { id := newId, type := .smoke, action := "start", startTime, duration := 1/2,
                    config := some { smokeIntensity := some config.smokeIntensity } }
    let newTimeline := timeline.map (fun t =>
      if t.id = trackId then { t with blocks := t.blocks ++ [newBlock] } else t)
    some { config with loopTimeline := newTimeline,
                       loopDuration := computeTimelineMaxEnd config motorAPosition motorBPosition newTimeline }

/-- Editor mutation `handleDeleteBlock` (MultiTrackTimeline.tsx). -/
def handleDeleteBlock (config : SimulationConfig) (motorAPosition motorBPosition : ℚ)
    (blockId : String) : SimulationConfig :=
  let timeline := config.loopTimeline
  let newTimeline := timeline.map (fun track =>
    { track with blocks := track.blocks.filter (fun b => ¬ b.id = blockId) })
  { config with loopTimeline := newTimeline,
                loopDuration := computeTimelineMaxEnd config motorAPosition motorBPosition newTimeline }

/-- Editor mutation `handleChangeAction` (MultiTrackTimeline.tsx). -/
def handleChangeAction (config : SimulationConfig) (motorAPosition motorBPosition : ℚ)
    (blockId : String) (newAction : String) : SimulationConfig :=
  let timeline := config.loopTimeline
  let newTimeline := timeline.map (fun track =>
    { track with blocks := track.blocks.map (fun block =>
        if block.id = blockId then { block with action := newAction } else block) })
  { config with loopTimeline := newTimeline,
                loopDuration := computeTimelineMaxEnd config motorAPosition motorBPosition newTimeline }

/-- Drag handler core (`handleMouseMove` / the global mouse-move listener in
MultiTrackTimeline.tsx): the dragged block's start time becomes
`max 0 (x / (TIME_SCALE * zoom) - dragOffset)` (TIME_SCALE = 50), and
`loopDuration` is recomputed. -/
def handleTimelineDrag (config : SimulationConfig) (motorAPosition motorBPosition : ℚ)
    (draggedBlockId : String) (x dragOffset zoom : ℚ) : SimulationConfig :=
  let timeline := config.loopTimeline
  let newStartTime := max 0 (x / (50 * zoom) - dragOffset)
  let newTimeline := timeline.map (fun track =>
    { track with blocks := track.blocks.map (fun block =>
        if block.id = draggedBlockId then { block with startTime := newStartTime } else block) })
  { config with loopTimeline := newTimeline,
                loopDuration := computeTimelineMaxEnd config motorAPosition motorBPosition newTimeline }

/-! ### MultiTrackTimeline.tsx — mount-time cleanup of misplaced blocks -/

/-- Track/block kind compatibility (the filter conditions of the cleanup
effect and of the render-time filter in MultiTrackTimeline.tsx). -/
def blockMatchesTrack (trackType : TimelineTrackType) (block : TimelineBlock) : Bool :=
  match trackType with
  | .motors => block.type = .motor
  | .fan => block.type = .fan
  | .smoke => block.type = .smoke

/-- The cleaned timeline built by the mount-time effect: every track keeps only
blocks whose kind matches the track. -/
def cleanupTimeline (timeline : List TimelineTrack) : List TimelineTrack :=
  timeline.map (fun track =>
    { track with blocks := track.blocks.filter (fun b => blockMatchesTrack track.type b) })

/-- Mount-time cleanup effect (MultiTrackTimeline.tsx, runs once on mount):
if any block was filtered out, store the cleaned timeline with a recomputed
`loopDuration`; otherwise leave the configuration untouched. -/
def cleanupEffect (config : SimulationConfig) (motorAPosition motorBPosition : ℚ) :
    SimulationConfig :=
  let timeline := config.loopTimeline
  let needsCleanup := timeline.any (fun track =>
    track.blocks.any (fun b => ¬ blockMatchesTrack track.type b))
  if needsCleanup then
    let cleaned := cleanupTimeline timeline
    { config with loopTimeline := cleaned,
                  loopDuration := computeTimelineMaxEnd config motorAPosition motorBPosition cleaned }
  else config

/-! ### App.tsx — commands, responses, and application state -/

/-- Outbound HTTP requests issued by the engine, in program order.  `setState`
is `POST /set_state`, `controlSmoke` is `POST /control_smoke`, and
`updateConfigFan` is the `POST /update_config` body `{fanEnabled, fanSpeed?}`
used to start or stop the fan. -/
inductive Command where
  | setState (state : String)
  | controlSmoke (action : String) (intensity : Option ℚ) (duration : Option ℚ)
  | updateConfigFan (fanEnabled : Bool) (fanSpeed : Option ℚ)
deriving DecidableEq

/-- Response body of `POST /set_state`; optional fields model JSON fields that
may be absent (`undefined`). -/
structure SetStateResponse where
  success : Bool
  motor_a_position : Option ℚ := none
  motor_b_position : Option ℚ := none
  movement_duration : Option ℚ := none
  fan_running : Option Bool := none
deriving DecidableEq

/-- The component state of `App.tsx` relevant to the engine.  React state
setters are modelled as immediate field updates; `isRunning` stands for both
the `isRunning` state and the mirror `isRunningRef.current`, which
`stopSimulation`/`toggleRun` keep synchronized.  `timeouts` models
`timeoutRefs.current` (a JS `Map` keyed by block id, each entry carrying the
armed block and its delay in milliseconds); `scheduledActions` models
`scheduledActionsRef.current`; `playbackInterval` models whether
`playbackIntervalRef.current` is set. -/
structure AppState where
  machineState : String
  isRunning : Bool
  piIp : String
  isPiOnline : Bool
  smokeRunning : Bool
  fanRunning : Bool
  motorAPosition : ℚ
  motorBPosition : ℚ
  movementDuration : ℚ
  currentTimelineIndex : ℕ
  currentPlaybackTime : ℚ
  timeouts : List (String × TimelineBlock × ℚ)
  scheduledActions : List (ℤ × List TimelineBlock)
  playbackInterval : Bool
deriving DecidableEq

/-- JS `Map.get`. -/
def mapGet {α : Type} (k : String) : List (String × α) → Option α
  | [] => none
  | (k', v) :: rest => if k' = k then some v else mapGet k rest

/-- JS `Map.set`: replaces the value in place if the key is present, appends
otherwise. -/
def mapSet {α : Type} (k : String) (v : α) : List (String × α) → List (String × α)
  | [] => [(k, v)]
  | (k', v') :: rest => if k' = k then (k, v) :: rest else (k', v') :: mapSet k v rest

/-- JS `Map.delete`. -/
def mapDelete {α : Type} (k : String) : List (String × α) → List (String × α)
  | [] => []
  | (k', v) :: rest => if k' = k then rest else (k', v) :: mapDelete k rest

/-! ### App.tsx — duration estimator and dispatcher -/

/-- Movement-duration estimator (`calculateMovementDuration`, App.tsx):
per-step delay 0.002 s, target pose resolved per action (OPEN and HOME both go
to the (0, 0) home position), duration = maximum axis displacement from the
cached positions times the step delay; any other action returns 0. -/
def calculateMovementDuration (config : SimulationConfig)
    (motorAPosition motorBPosition : ℚ) (state : String) : ℚ :=
  let stepDelay : ℚ := 2/1000
  if state = "DIP" then
    let targetA := jsOr config.motorADipPosition 200
    let targetB := jsOr config.motorBDipPosition (-200)
    max |targetA - motorAPosition| |targetB - motorBPosition| * stepDelay
  else if state = "OPEN" ∨ state = "HOME" then
    let targetA : ℚ := 0
    let targetB : ℚ := 0
    max |targetA - motorAPosition| |targetB - motorBPosition| * stepDelay
  else if state = "CLOSE" then
    let targetA := jsOr config.motorAClosePosition 200
    let targetB := jsOr config.motorBClosePosition (-200)
    max |targetA - motorAPosition| |targetB - motorBPosition| * stepDelay
  else 0

/-- Optimistic cached-position update switch in `executeBlock` (App.tsx):
DIP / OPEN / HOME / CLOSE resolve to their target poses (OPEN and HOME to the
(0, 0) home position); any other action keeps the current cached positions
(`targetA`/`targetB` are initialized to them and no case fires). -/
def resolveExecTarget (config : SimulationConfig) (motorState : String)
    (motorAPosition motorBPosition : ℚ) : ℚ × ℚ :=
  if motorState = "DIP" then
    (jsOr config.motorADipPosition 200, jsOr config.motorBDipPosition (-200))
  else if motorState = "OPEN" ∨ motorState = "HOME" then
    (0, 0)
  else if motorState = "CLOSE" then
    (jsOr config.motorAClosePosition 200, jsOr config.motorBClosePosition (-200))
  else (motorAPosition, motorBPosition)

/-- Remote movement command (`sendRemoteCommand`, App.tsx).  `resp = none`
models a network failure or non-ok HTTP status (the function throws, third
component `true`); `resp = some data` models a resolved call, whose position /
duration / fan fields are merged into the cached state when present. -/
def sendRemoteCommand (s : AppState) (state : String)
    (resp : Option SetStateResponse) : AppState × List Command × Bool :=
  if s.piIp = "" then (s, [], false)
  else
    match resp with
    | none => (s, [Command.setState state], true)
    | some data =>
      let s' :=
        if data.success then
          match data.motor_a_position, data.motor_b_position with
          | some a, some b =>
            let s1 := { s with motorAPosition := a, motorBPosition := b }
            let s2 :=
              match data.movement_duration with
              | some d => { s1 with movementDuration := d }
              | none => s1
            (match data.fan_running with
             | some f => { s2 with fanRunning := f }
             | none => s2)
          | _, _ => s
        else s
      (s', [Command.setState state], false)

/-- Block dispatch (`executeBlock`, App.tsx).  Every callback re-checks the
running flag first and is a no-op when the loop is stopped.  Motor blocks set
the machine state, compute the movement duration from the PRE-dispatch cached
positions, then immediately update the cached positions to the resolved
target, and fire the remote command without awaiting (the response and the
`.catch` handler are modelled separately).  Fan blocks are skipped.  Smoke
blocks fire `control_smoke` without awaiting (response effects on
`smokeRunning` arrive asynchronously and are not part of the dispatch). -/
def executeBlock (config : SimulationConfig) (s : AppState) (block : TimelineBlock) :
    AppState × List Command :=
  if ¬ s.isRunning then (s, [])
  else
    match block.type with
    | .motor =>
      let motorState := block.action
      let s1 := { s with machineState := motorState }
      let motorDuration :=
        calculateMovementDuration config s.motorAPosition s.motorBPosition motorState
      let s2 := { s1 with movementDuration := motorDuration }
      let target := resolveExecTarget config motorState s.motorAPosition s.motorBPosition
      let s3 := { s2 with motorAPosition := target.1, motorBPosition := target.2 }
      if s.piIp ≠ "" ∧ s.isPiOnline then (s3, [Command.setState motorState]) else (s3, [])
    | .fan => (s, [])
    | .smoke =>
      if block.action = "start" then
        let smokeIntensity :=
          jsOrOpt (block.config.bind (fun c => c.smokeIntensity)) config.smokeIntensity
        let smokeDuration := jsOr block.duration config.smokeDuration
        if s.piIp ≠ "" ∧ s.isPiOnline then
          (s, [Command.controlSmoke "start" (some smokeIntensity) (some smokeDuration)])
        else (s, [])
      else
        if s.piIp ≠ "" ∧ s.isPiOnline then (s, [Command.controlSmoke "stop" none none])
        else (s, [])

/-- Rejection handler of the fire-and-forget motor dispatch in `executeBlock`
(App.tsx: `sendRemoteCommand(motorState).catch(e => console.error(...))`): it
only logs, so the component state is unchanged. -/
def motorDispatchCatchHandler (s : AppState) : AppState := s

/-- One armed per-block timer callback as the program actually runs it.  The
`setTimeout` callbacks armed in `toggleRun` (and in the loop-restart branch)
all close over the run-start render's `executeBlock`, so every plain useState
read inside the callback — `motorAPosition`, `motorBPosition`, `piIp`,
`isPiOnline` — sees the `render` snapshot captured when the timer was armed,
while the running check goes through the live `isRunningRef` and the setter
writes land in the `live` state (they reach later renders and the UI, but
never a previously armed callback).  `executeBlock` above is this body with
`render = live`, the view that is sound within one synchronous handler; this
split is what decides cross-callback position propagation. -/
def executeBlockTimerCallback (config : SimulationConfig) (render live : AppState)
    (block : TimelineBlock) : AppState × List Command :=
  if ¬ live.isRunning then (live, [])
  else
    match block.type with
    | .motor =>
      let motorState := block.action
      let live1 := { live with machineState := motorState }
      let motorDuration :=
        calculateMovementDuration config render.motorAPosition render.motorBPosition motorState
      let live2 := { live1 with movementDuration := motorDuration }
      let target :=
        resolveExecTarget config motorState render.motorAPosition render.motorBPosition
      let live3 := { live2 with motorAPosition := target.1, motorBPosition := target.2 }
      if render.piIp ≠ "" ∧ render.isPiOnline then (live3, [Command.setState motorState])
      else (live3, [])
    | .fan => (live, [])
    | .smoke =>
      if block.action = "start" then
        let smokeIntensity :=
          jsOrOpt (block.config.bind (fun c => c.smokeIntensity)) config.smokeIntensity
        let smokeDuration := jsOr block.duration config.smokeDuration
        if render.piIp ≠ "" ∧ render.isPiOnline then
          (live, [Command.controlSmoke "start" (some smokeIntensity) (some smokeDuration)])
        else (live, [])
      else
        if render.piIp ≠ "" ∧ render.isPiOnline then
          (live, [Command.controlSmoke "stop" none none])
        else (live, [])

/-! ### App.tsx — run controller -/

/-- Loop teardown and shutdown (`stopSimulation`, App.tsx).  Synchronously:
the running flag (state and ref) is flipped to false FIRST, every pending
per-block timeout is cleared, the playback interval is cleared, and the
playhead is reset.  Then, when the Pi is reachable: the smoke machine is
stopped if running, the fan is turned off, and — unless `skipOpen` — an OPEN
command returns the arms home; if that command resolves the machine state
becomes OPEN, if it throws the machine state falls back to IDLE.  Offline, the
machine state is set to IDLE directly.  `smokeStopFails` / `fanStopFails`
model rejections of the corresponding fetches (their `catch` blocks only log,
so the optimistic flag update is skipped); `openResp` is the outcome of the
OPEN command. -/
def stopSimulation (s : AppState) (skipOpen : Bool)
    (smokeStopFails fanStopFails : Bool) (openResp : Option SetStateResponse) :
    AppState × List Command :=
  let s1 := { s with isRunning := false, timeouts := [], playbackInterval := false,
                     currentTimelineIndex := 0, currentPlaybackTime := 0,
                     scheduledActions := [] }
  if s.piIp ≠ "" ∧ s.isPiOnline then
    if ¬ skipOpen then
      let p1 :=
        if s1.smokeRunning then
          ((if smokeStopFails then s1 else { s1 with smokeRunning := false }),
           [Command.controlSmoke "stop" none none])
        else (s1, [])
      let s2 := if fanStopFails then p1.1 else { p1.1 with fanRunning := false }
      -- 100 ms settling delay, then the home-return OPEN command
      let r := sendRemoteCommand s2 "OPEN" openResp
      let s3 :=
        if r.2.2 then { r.1 with machineState := MachineState.IDLE }
        else { r.1 with machineState := MachineState.OPEN }
      (s3, p1.2 ++ [Command.updateConfigFan false none] ++ r.2.1)
    else
      let p1 :=
        if s1.smokeRunning then
          ((if smokeStopFails then s1 else { s1 with smokeRunning := false }),
           [Command.controlSmoke "stop" none none])
        else (s1, [])
      let s2 := if fanStopFails then p1.1 else { p1.1 with fanRunning := false }
      (s2, p1.2 ++ [Command.updateConfigFan false none])
  else ({ s1 with machineState := MachineState.IDLE }, [])

/-! ### App.tsx — scheduler / player -/

/-- Flattening step of `toggleRun` (App.tsx): collect every block of every
track, paired with its start time, with no filtering of any kind. -/
def flattenAllBlocks (timeline : List TimelineTrack) : List (TimelineBlock × ℚ) :=
  timeline.flatMap (fun track => track.blocks.map (fun block => (block, block.startTime)))

/-- Loop-duration scan of `toggleRun` (App.tsx): like the editor's, but built
on `calculateMovementDuration` (the copy with the HOME case). -/
def computeRunMaxEnd (config : SimulationConfig) (motorAPosition motorBPosition : ℚ)
    (allBlocks : List (TimelineBlock × ℚ)) : ℚ :=
  allBlocks.foldl (fun maxEnd p =>
    let block := p.1
    let duration :=
      if block.type = .motor then
        calculateMovementDuration config motorAPosition motorBPosition block.action
          + block.duration
      else block.duration
    let endTime := block.startTime + duration
    if maxEnd < endTime then endTime else maxEnd) 0

/-- Arming one timeout per block (`allBlocks.forEach` in `toggleRun` and in the
loop-restart branch of the interval callback, App.tsx): each block's callback
is scheduled `startTime * 1000` milliseconds ahead and recorded in the timeout
map under the block's id. -/
def armTimers (blocks : List (TimelineBlock × ℚ))
    (timeouts : List (String × TimelineBlock × ℚ)) : List (String × TimelineBlock × ℚ) :=
  blocks.foldl (fun acc p => mapSet p.1.id (p.1, p.2 * 1000) acc) timeouts

/-- The `scheduledActionsRef` bookkeeping of `toggleRun`: group blocks by
`Math.round(startTime * 1000)`, pushing onto the existing bucket. -/
def addScheduled (m : List (ℤ × List TimelineBlock)) (t : ℤ) (b : TimelineBlock) :
    List (ℤ × List TimelineBlock) :=
  if m.any (fun p => p.1 = t) then
    m.map (fun p => if p.1 = t then (p.1, p.2 ++ [b]) else p)
  else m ++ [(t, [b])]

/-- Start branch of `toggleRun` (App.tsx, taken when `isRunning` is false):
early-return if the timeline or its flattened block list is empty; otherwise
sort the blocks by start time, compute the loop duration, flip the running
flag (state and ref), reset the playhead, issue the single fan-enable command
when the fan is globally enabled and the Pi is reachable, record the schedule,
start the 100 ms playback interval, and arm one timeout per block.  The
source's emptiness check reads `allBlocks.length` after the in-place sort;
the length is unaffected by sorting, so it is checked on the unsorted list
here. -/
def toggleRunStart (config : SimulationConfig) (s : AppState) : AppState × List Command :=
  let timeline := config.loopTimeline
  if timeline.isEmpty then (s, [])
  else
    let allBlocks := flattenAllBlocks timeline
    let sortedBlocks := allBlocks.mergeSort (fun a b => a.2 ≤ b.2)
    if allBlocks.isEmpty then (s, [])
    else
      let maxEndTime := computeRunMaxEnd config s.motorAPosition s.motorBPosition sortedBlocks
      let s1 := { s with isRunning := true, currentPlaybackTime := 0, scheduledActions := [] }
      let fanCmds :=
        if config.fanEnabled ∧ s.piIp ≠ "" ∧ s.isPiOnline then
          [Command.updateConfigFan true (some config.fanSpeed)]
        else []
      let newScheduled :=
        sortedBlocks.foldl (fun m p => addScheduled m (round (p.2 * 1000)) p.1)
          s1.scheduledActions
      let s2 := { s1 with scheduledActions := newScheduled }
      let s3 := { s2 with playbackInterval := true }
      let s4 := { s3 with timeouts := armTimers sortedBlocks s3.timeouts }
      -- maxEndTime is captured (with sortedBlocks) as the interval's loopData
      let _ := maxEndTime
      (s4, fanCmds)

/-- Body of the 100 ms playback interval callback (App.tsx).  `loopAllBlocks`
and `maxEndTime` are the `loopData` captured at run start.  If the run was
cancelled, nothing happens.  Otherwise the playhead advances by 0.1 s; when it
reaches the loop end the callback re-checks the running flag, re-arms one
timeout per block relative to the fresh zero, and resets the playhead to 0. -/
def playbackTick (loopAllBlocks : List (TimelineBlock × ℚ)) (maxEndTime : ℚ)
    (s : AppState) : AppState :=
  if ¬ s.isRunning then s
  else
    let newTime := s.currentPlaybackTime + 1/10
    if maxEndTime ≤ newTime then
      if s.isRunning then
        { s with currentPlaybackTime := 0,
                 timeouts := armTimers loopAllBlocks s.timeouts }
      else { s with currentPlaybackTime := 0 }
    else { s with currentPlaybackTime := newTime }

/-- Body of a per-block timeout callback (App.tsx): run `executeBlock` (whose
first step is the running-flag check; the restart-armed callbacks check the
same flag once more before calling it, which is equivalent) and then delete
the block's entry from the timeout map. -/
def fireBlockTimer (config : SimulationConfig) (s : AppState) (block : TimelineBlock) :
    AppState × List Command :=
  let r := executeBlock config s block
  ({ r.1 with timeouts := mapDelete block.id r.1.timeouts }, r.2)

/-- One deferred callback of the event loop: either an armed per-block timeout
fires, or the coarse playback interval ticks. -/
inductive TimerEvent where
  | fireBlock (block : TimelineBlock)
  | tick (loopAllBlocks : List (TimelineBlock × ℚ)) (maxEndTime : ℚ)

/-- Step function over deferred callbacks, accumulating dispatched commands. -/
def timerStep (config : SimulationConfig) :
    AppState × List Command → TimerEvent → AppState × List Command
  | (s, acc), .fireBlock block =>
    let r := fireBlockTimer config s block
    (r.1, acc ++ r.2)
  | (s, acc), .tick loopAllBlocks maxEndTime =>
    (playbackTick loopAllBlocks maxEndTime s, acc)

/-- The `toggleRun` entry point (App.tsx): stop when running (with `skipOpen`
defaulted to false), start otherwise. -/
def toggleRun (config : SimulationConfig) (s : AppState)
    (smokeStopFails fanStopFails : Bool) (openResp : Option SetStateResponse) :
    AppState × List Command :=
  if s.isRunning then stopSimulation s false smokeStopFails fanStopFails openResp
  else toggleRunStart config s

/-! ### Claim-level properties and concrete fixtures -/

/-- Ends of all blocks of a timeline (`startTime + effective duration`),
flattened; `computeTimelineMaxEnd` is the fold of `max` over this list. -/
def timelineBlockEnds (config : SimulationConfig) (motorAPosition motorBPosition : ℚ)
    (timeline : List TimelineTrack) : List ℚ :=
  timeline.flatMap (fun track => track.blocks.map (fun block =>
    block.startTime + timelineEffectiveDuration config motorAPosition motorBPosition block))

/-- Loop-duration correctness after a mutation: the stored `loopDuration` is
the mutation's recomputed scan, it bounds `startTime + effective duration` of
every block of every track, and it is attained by some block unless it is 0
(the scan's initial value, used when no block end exceeds it). -/
def LoopDurationIsMax (config : SimulationConfig) (motorAPosition motorBPosition : ℚ)
    (result : SimulationConfig) : Prop :=
  result.loopDuration =
    computeTimelineMaxEnd config motorAPosition motorBPosition result.loopTimeline ∧
  (∀ track ∈ result.loopTimeline, ∀ block ∈ track.blocks,
    block.startTime + timelineEffectiveDuration config motorAPosition motorBPosition block ≤
      result.loopDuration) ∧
  (result.loopDuration = 0 ∨
    ∃ track ∈ result.loopTimeline, ∃ block ∈ track.blocks,
      result.loopDuration =
        block.startTime + timelineEffectiveDuration config motorAPosition motorBPosition block)

/-- Commands that address the fan (`/update_config` bodies carrying
`fanEnabled`). -/
def isFanCommand : Command → Bool
  | .updateConfigFan _ _ => true
  | _ => false

/-- A smoke-kind block stored (incorrectly) in the motors track. -/
def misplacedSmokeBlock : TimelineBlock where
  id := "sb1"
  type := .smoke
  action := "start"
  startTime := 1
  duration := 2

/-- A timeline whose motors track holds a smoke-kind block. -/
def misplacedTimeline : List TimelineTrack :=
  [ { id := "track-motors", type := .motors, name := "Motors",
      blocks := [misplacedSmokeBlock] } ]

/-- Configuration carrying `misplacedTimeline` (e.g. as loaded from the server
after mount, which bypasses the mount-time cleanup). -/
def misplacedConfig : SimulationConfig :=
  { DEFAULT_CONFIG with loopTimeline := misplacedTimeline }

/-- An idle, online dashboard state. -/
def schedulerProbeState : AppState where
  machineState := "IDLE"
  isRunning := false
  piIp := "192.168.0.99"
  isPiOnline := true
  smokeRunning := false
  fanRunning := false
  motorAPosition := 0
  motorBPosition := 0
  movementDuration := 0
  currentTimelineIndex := 0
  currentPlaybackTime := 0
  timeouts := []
  scheduledActions := []
  playbackInterval := false

/-- First block of a two-block auto-sequence. -/
def seqBlockOpen : TimelineBlock where
  id := "m1"
  type := .motor
  action := "OPEN"
  startTime := 0
  duration := 0

/-- Second block of a two-block auto-sequence, armed 2 s in. -/
def seqBlockClose : TimelineBlock where
  id := "m2"
  type := .motor
  action := "CLOSE"
  startTime := 2
  duration := 0

/-- A running, online state mid-sequence, with the second block's timer still
armed. -/
def seqRunState : AppState :=
  { schedulerProbeState with
      isRunning := true,
      playbackInterval := true,
      timeouts := [("m2", seqBlockClose, 2000)] }

/-- A running, online state with the smoke machine and fan active. -/
def stopProbeState : AppState :=
  { seqRunState with
      machineState := "DIP",
      smokeRunning := true,
      fanRunning := true,
      motorAPosition := 200,
      motorBPosition := -200,
      currentPlaybackTime := 7/2 }

/-- A resolved home-return response reporting the home positions. -/
def openOkResponse : SetStateResponse where
  success := true
  motor_a_position := some 0
  motor_b_position := some 0

/-- A motor block whose action is the HOME pose label. -/
def homeProbeBlock : TimelineBlock where
  id := "mh"
  type := .motor
  action := "HOME"
  startTime := 0
  duration := 0

/-- A fan-start block (the default timeline's `f1`). -/
def fanProbeBlock : TimelineBlock where
  id := "f1"
  type := .fan
  action := "start"
  startTime := 6
  duration := 3
  config := some { fanSpeed := some 100 }

/-- A motor DIP block (the default timeline's `m3`). -/
def dipProbeBlock : TimelineBlock where
  id := "m3"
  type := .motor
  action := "DIP"
  startTime := 4
  duration := 0

/-! ### Supporting lemmas: the maxEnd scan computes a maximum -/

lemma ite_lt_eq_max (a b : ℚ) : (if a < b then b else a) = max a b := by
  rcases le_or_lt b a with h | h
  · rw [if_neg (not_lt.mpr h), max_eq_left h]
  · rw [if_pos h, max_eq_right h.le]

lemma foldl_blocks_eq_max (config : SimulationConfig) (pA pB : ℚ)
    (blocks : List TimelineBlock) (a : ℚ) :
    blocks.foldl (fun maxEnd block =>
      let endTime := block.startTime + timelineEffectiveDuration config pA pB block
      if maxEnd < endTime then endTime else maxEnd) a =
    (blocks.map (fun b => b.startTime + timelineEffectiveDuration config pA pB b)).foldl max a := by
  induction blocks generalizing a with
  | nil => rfl
  | cons b bs ih =>
    rw [List.foldl_cons, List.map_cons, List.foldl_cons, ← ih]
    dsimp only
    rw [ite_lt_eq_max]

lemma computeTimelineMaxEnd_aux (config : SimulationConfig) (pA pB : ℚ)
    (timeline : List TimelineTrack) (a : ℚ) :
    timeline.foldl (fun maxEnd track =>
      track.blocks.foldl (fun maxEnd block =>
        let endTime := block.startTime + timelineEffectiveDuration config pA pB block
        if maxEnd < endTime then endTime else maxEnd) maxEnd) a =
    (timelineBlockEnds config pA pB timeline).foldl max a := by
  induction timeline generalizing a with
  | nil => rfl
  | cons track rest ih =>
    rw [List.foldl_cons, ih]
    simp only [timelineBlockEnds, List.flatMap_cons, List.foldl_append]
    rw [foldl_blocks_eq_max]

lemma computeTimelineMaxEnd_eq_foldl (config : SimulationConfig) (pA pB : ℚ)
    (timeline : List TimelineTrack) :
    computeTimelineMaxEnd config pA pB timeline =
      (timelineBlockEnds config pA pB timeline).foldl max 0 :=
  computeTimelineMaxEnd_aux config pA pB timeline 0

lemma le_foldl_max (l : List ℚ) (a : ℚ) : a ≤ l.foldl max a := by
  induction l generalizing a with
  | nil => exact le_refl a
  | cons x xs ih =>
    rw [List.foldl_cons]
    exact le_trans (le_max_left a x) (ih (max a x))

lemma mem_le_foldl_max (l : List ℚ) : ∀ a x : ℚ, x ∈ l → x ≤ l.foldl max a := by
  induction l with
  | nil => intro a x hx; cases hx
  | cons y ys ih =>
    intro a x hx
    rw [List.foldl_cons]
    rcases List.mem_cons.mp hx with h | h
    · subst h
      exact le_trans (le_max_right a x) (le_foldl_max ys (max a x))
    · exact ih (max a y) x h

lemma foldl_max_eq_init_or_mem (l : List ℚ) (a : ℚ) :
    l.foldl max a = a ∨ l.foldl max a ∈ l := by
  induction l generalizing a with
  | nil => exact Or.inl rfl
  | cons x xs ih =>
    rw [List.foldl_cons]
    rcases ih (max a x) with h | h
    · rcases max_cases a x with ⟨he, -⟩ | ⟨he, -⟩
      · exact Or.inl (by rw [h, he])
      · exact Or.inr (by rw [h, he]; exact List.mem_cons_self x xs)
    · exact Or.inr (List.mem_cons_of_mem x h)

lemma computeTimelineMaxEnd_isMax (config : SimulationConfig) (pA pB : ℚ)
    (timeline : List TimelineTrack) :
    (∀ track ∈ timeline, ∀ block ∈ track.blocks,
      block.startTime + timelineEffectiveDuration config pA pB block ≤
        computeTimelineMaxEnd config pA pB timeline) ∧
    (computeTimelineMaxEnd config pA pB timeline = 0 ∨
      ∃ track ∈ timeline, ∃ block ∈ track.blocks,
        computeTimelineMaxEnd config pA pB timeline =
          block.startTime + timelineEffectiveDuration config pA pB block) := by
  rw [computeTimelineMaxEnd_eq_foldl]
  constructor
  · intro track htrack block hblock
    refine mem_le_foldl_max _ 0 _ ?_
    simp only [timelineBlockEnds, List.mem_flatMap, List.mem_map]
    exact ⟨track, htrack, block, hblock, rfl⟩
  · rcases foldl_max_eq_init_or_mem (timelineBlockEnds config pA pB timeline) 0 with h | h
    · exact Or.inl h
    · right
      simp only [timelineBlockEnds, List.mem_flatMap, List.mem_map] at h
      obtain ⟨track, htrack, block, hblock, he⟩ := h
      exact ⟨track, htrack, block, hblock, he.symm⟩

lemma loopDurationIsMax_of_recomputed (config : SimulationConfig) (pA pB : ℚ)
    (result : SimulationConfig)
    (h : result.loopDuration = computeTimelineMaxEnd config pA pB result.loopTimeline) :
    LoopDurationIsMax config pA pB result := by
  obtain ⟨h1, h2⟩ := computeTimelineMaxEnd_isMax config pA pB result.loopTimeline
  refine ⟨h, ?_, ?_⟩
  · intro track htrack block hblock
    rw [h]
    exact h1 track htrack block hblock
  · rw [h]
    exact h2

/-- C2: after every timeline mutation (partial block update, add block, delete
block, action edit, drag/move), the stored `loopDuration` equals the maximum
over all blocks in all tracks of `startTime + effectiveDuration`, where the
effective duration of a motor block is the movement estimate plus its stored
(post-move wait) duration and that of a fan or smoke block is its stored
duration alone.  (`handleAddBlock` returns `none` — no mutation — when the
track id is unknown.) -/
theorem claim_C2_loop_duration_recomputed (config : SimulationConfig)
    (motorAPosition motorBPosition : ℚ) (blockId newAction newId trackId : String)
    (updates : BlockUpdates) (trackType : TimelineTrackType) (x dragOffset zoom : ℚ) :
    LoopDurationIsMax config motorAPosition motorBPosition
      (updateBlock config motorAPosition motorBPosition blockId updates) ∧
    (∀ result, handleAddBlock config motorAPosition motorBPosition trackId trackType newId =
        some result → LoopDurationIsMax config motorAPosition motorBPosition result) ∧
    LoopDurationIsMax config motorAPosition motorBPosition
      (handleDeleteBlock config motorAPosition motorBPosition blockId) ∧
    LoopDurationIsMax config motorAPosition motorBPosition
      (handleChangeAction config motorAPosition motorBPosition blockId newAction) ∧
    LoopDurationIsMax config motorAPosition motorBPosition
      (handleTimelineDrag config motorAPosition motorBPosition blockId x dragOffset zoom) := by
  refine ⟨loopDurationIsMax_of_recomputed _ _ _ _ rfl, ?_,
    loopDurationIsMax_of_recomputed _ _ _ _ rfl,
    loopDurationIsMax_of_recomputed _ _ _ _ rfl,
    loopDurationIsMax_of_recomputed _ _ _ _ rfl⟩
  intro result h
  unfold handleAddBlock at h
  rcases hfind : List.find? (fun t => decide (t.id = trackId)) config.loopTimeline with _ | track
  · simp [hfind] at h
  · cases trackType <;>
      · simp only [hfind, Option.some.injEq] at h
        subst h
        exact loopDurationIsMax_of_recomputed _ _ _ _ rfl

/-- Witness for C2: a concrete delete and a concrete add on the default
timeline, with the add's early-return hypothesis discharged. -/
theorem claim_C2_witness :
    LoopDurationIsMax DEFAULT_CONFIG 0 0 (handleDeleteBlock DEFAULT_CONFIG 0 0 "m3") ∧
    ∃ result,
      handleAddBlock DEFAULT_CONFIG 0 0 "track-motors" TimelineTrackType.motors "b9" =
        some result ∧ LoopDurationIsMax DEFAULT_CONFIG 0 0 result := by
  obtain ⟨-, hadd, hdel, -, -⟩ :=
    claim_C2_loop_duration_recomputed DEFAULT_CONFIG 0 0 "m3" "CLOSE" "b9" "track-motors"
      {} TimelineTrackType.motors 0 0 1
  refine ⟨hdel, ?_⟩
  have hs : (handleAddBlock DEFAULT_CONFIG 0 0 "track-motors"
      TimelineTrackType.motors "b9").isSome = true := rfl
  obtain ⟨r, hr⟩ := Option.isSome_iff_exists.mp hs
  exact ⟨r, hr, hadd r hr⟩

/-! ### Supporting lemmas: executeBlock case analysis -/

lemma executeBlock_not_running (config : SimulationConfig) (s : AppState)
    (block : TimelineBlock) (h : s.isRunning = false) :
    executeBlock config s block = (s, []) := by
  unfold executeBlock
  rw [if_pos (by simp [h])]

lemma executeBlock_motor (config : SimulationConfig) (s : AppState) (block : TimelineBlock)
    (hrun : s.isRunning = true) (htype : block.type = .motor) :
    (executeBlock config s block).1 =
      { s with machineState := block.action,
               movementDuration :=
                 calculateMovementDuration config s.motorAPosition s.motorBPosition block.action,
               motorAPosition :=
                 (resolveExecTarget config block.action s.motorAPosition s.motorBPosition).1,
               motorBPosition :=
                 (resolveExecTarget config block.action s.motorAPosition s.motorBPosition).2 } ∧
    (executeBlock config s block).2 =
      (if s.piIp ≠ "" ∧ s.isPiOnline then [Command.setState block.action] else []) := by
  rcases block with ⟨bid, bty, bact, bst, bdur, bcfg⟩
  have hb : bty = TimelineBlockType.motor := htype
  subst hb
  unfold executeBlock
  rw [if_neg (by simp [hrun])]
  dsimp only
  refine ⟨?_, ?_⟩
  · split <;> rfl
  · split <;> rfl

lemma executeBlock_fan (config : SimulationConfig) (s : AppState) (block : TimelineBlock)
    (htype : block.type = .fan) : executeBlock config s block = (s, []) := by
  rcases block with ⟨bid, bty, bact, bst, bdur, bcfg⟩
  have hb : bty = TimelineBlockType.fan := htype
  subst hb
  unfold executeBlock
  split
  · rfl
  · rfl

lemma executeBlock_preserves (config : SimulationConfig) (s : AppState)
    (block : TimelineBlock) :
    (executeBlock config s block).1.isRunning = s.isRunning ∧
    (executeBlock config s block).1.timeouts = s.timeouts ∧
    (executeBlock config s block).1.piIp = s.piIp ∧
    (executeBlock config s block).1.isPiOnline = s.isPiOnline := by
  rcases block with ⟨bid, bty, bact, bst, bdur, bcfg⟩
  unfold executeBlock
  cases bty <;> dsimp only <;> split_ifs <;> exact ⟨rfl, rfl, rfl, rfl⟩

/-- C5: `calculateMovementDuration` returns, for each recognized movement
action (DIP, OPEN/HOME, CLOSE), the maximum axis displacement from the cached
positions to the resolved target times 0.002 s; it is non-negative for every
action, zero whenever the resolved target equals the current positions, and 0
for every non-movement or unrecognized action label.  It is a pure function of
its arguments (a Lean function), mutating nothing. -/
theorem claim_C5_duration_estimator (config : SimulationConfig) (posA posB : ℚ)
    (action : String) :
    0 ≤ calculateMovementDuration config posA posB action ∧
    calculateMovementDuration config posA posB "DIP" =
      max |jsOr config.motorADipPosition 200 - posA|
          |jsOr config.motorBDipPosition (-200) - posB| * (2/1000) ∧
    calculateMovementDuration config posA posB "OPEN" =
      max |0 - posA| |0 - posB| * (2/1000) ∧
    calculateMovementDuration config posA posB "HOME" =
      max |0 - posA| |0 - posB| * (2/1000) ∧
    calculateMovementDuration config posA posB "CLOSE" =
      max |jsOr config.motorAClosePosition 200 - posA|
          |jsOr config.motorBClosePosition (-200) - posB| * (2/1000) ∧
    (action ≠ "DIP" → action ≠ "OPEN" → action ≠ "HOME" → action ≠ "CLOSE" →
      calculateMovementDuration config posA posB action = 0) ∧
    (resolveExecTarget config action posA posB = (posA, posB) →
      calculateMovementDuration config posA posB action = 0) := by
  refine ⟨?_, rfl, rfl, rfl, rfl, ?_, ?_⟩
  · simp only [calculateMovementDuration]
    split_ifs <;>
      first
        | exact le_refl 0
        | exact mul_nonneg (le_trans (abs_nonneg _) (le_max_left _ _)) (by norm_num)
  · intro h1 h2 h3 h4
    simp [calculateMovementDuration, h1, h2, h3, h4]
  · intro h
    unfold resolveExecTarget at h
    unfold calculateMovementDuration
    split_ifs at h ⊢
    · rw [Prod.mk.injEq] at h
      rw [h.1, h.2]
      simp
    · rw [Prod.mk.injEq] at h
      rw [← h.1, ← h.2]
      simp
    · rw [Prod.mk.injEq] at h
      rw [h.1, h.2]
      simp
    · rfl

/-- Witness for C5: concrete evaluations — a DIP estimate, a non-movement
label, and a zero-displacement action. -/
theorem claim_C5_witness :
    calculateMovementDuration DEFAULT_CONFIG 100 (-50) "DIP" = 3/10 ∧
    calculateMovementDuration DEFAULT_CONFIG 7 8 "BLOW" = 0 ∧
    calculateMovementDuration DEFAULT_CONFIG 7 8 "SMOKE_TEST" = 0 := by
  refine ⟨?_, ?_, ?_⟩
  · have h := (claim_C5_duration_estimator DEFAULT_CONFIG 100 (-50) "BLOW").2.1
    rw [h]
    norm_num [jsOr, DEFAULT_CONFIG]
  · exact (claim_C5_duration_estimator DEFAULT_CONFIG 7 8 "BLOW").2.2.2.2.2.1
      (by decide) (by decide) (by decide) (by decide)
  · exact (claim_C5_duration_estimator DEFAULT_CONFIG 7 8 "SMOKE_TEST").2.2.2.2.2.2 rfl

/-- C4 is a code bug: the claim (and the code's own comments at the position
update, "so next block calculates from correct position") state the intent,
but an armed timer callback reads the cached motor positions from the
run-start render snapshot, and a useState write by an earlier callback never
reaches it — only `isRunningRef` crosses that boundary.  Concretely, from a
run started at cached positions (0, 0) over a reachable Pi: the CLOSE
callback writes its resolved target (200, −200) into the live state (visible
to later renders and the UI), yet the DIP callback armed at the same run
start still computes its estimate from (0, 0), giving 0.4 s, while the
claim's asserted estimate — from CLOSE's target — is 0 s: the two differ. -/
theorem claim_C4_stale_position_snapshot :
    ((executeBlockTimerCallback DEFAULT_CONFIG seqRunState seqRunState
        seqBlockClose).1.motorAPosition,
     (executeBlockTimerCallback DEFAULT_CONFIG seqRunState seqRunState
        seqBlockClose).1.motorBPosition) = resolveExecTarget DEFAULT_CONFIG "CLOSE" 0 0 ∧
    resolveExecTarget DEFAULT_CONFIG "CLOSE" 0 0 = (200, -200) ∧
    (executeBlockTimerCallback DEFAULT_CONFIG seqRunState
        (executeBlockTimerCallback DEFAULT_CONFIG seqRunState seqRunState seqBlockClose).1
        dipProbeBlock).1.movementDuration = 2/5 ∧
    calculateMovementDuration DEFAULT_CONFIG 200 (-200) "DIP" = 0 ∧
    (executeBlockTimerCallback DEFAULT_CONFIG seqRunState
        (executeBlockTimerCallback DEFAULT_CONFIG seqRunState seqRunState seqBlockClose).1
        dipProbeBlock).1.movementDuration ≠
      calculateMovementDuration DEFAULT_CONFIG 200 (-200) "DIP" := by
  have h1 : (executeBlockTimerCallback DEFAULT_CONFIG seqRunState
      (executeBlockTimerCallback DEFAULT_CONFIG seqRunState seqRunState seqBlockClose).1
      dipProbeBlock).1.movementDuration =
      max |(200 : ℚ) - 0| |(-200 : ℚ) - 0| * (2/1000) := rfl
  have h2 : calculateMovementDuration DEFAULT_CONFIG 200 (-200) "DIP" =
      max |(200 : ℚ) - 200| |(-200 : ℚ) - (-200)| * (2/1000) := rfl
  refine ⟨rfl, rfl, ?_, ?_, ?_⟩
  · rw [h1]
    norm_num
  · rw [h2]
    norm_num
  · rw [h1, h2]
    norm_num

/-- C10: for the movement actions OPEN and HOME, both the duration estimator
and the dispatcher's optimistic cached-position update resolve the target to
(0, 0) for every configuration — in particular they never consult the
configured `motorAOpenPosition`/`motorBOpenPosition` fields (defaults
−400/400) — so OPEN and HOME are interchangeable for estimation and
position propagation. -/
theorem claim_C10_open_home_target_origin (config : SimulationConfig) (posA posB x y : ℚ)
    (s : AppState) (block : TimelineBlock) :
    resolveExecTarget config "OPEN" posA posB = (0, 0) ∧
    resolveExecTarget config "HOME" posA posB = (0, 0) ∧
    calculateMovementDuration config posA posB "OPEN" =
      calculateMovementDuration config posA posB "HOME" ∧
    calculateMovementDuration
        { config with motorAOpenPosition := x, motorBOpenPosition := y } posA posB "OPEN" =
      calculateMovementDuration config posA posB "OPEN" ∧
    resolveExecTarget { config with motorAOpenPosition := x, motorBOpenPosition := y }
        "HOME" posA posB = resolveExecTarget config "HOME" posA posB ∧
    DEFAULT_CONFIG.motorAOpenPosition = -400 ∧
    DEFAULT_CONFIG.motorBOpenPosition = 400 ∧
    (s.isRunning = true → block.type = .motor →
      block.action = "OPEN" ∨ block.action = "HOME" →
      (executeBlock config s block).1.motorAPosition = 0 ∧
      (executeBlock config s block).1.motorBPosition = 0) := by
  refine ⟨rfl, rfl, rfl, rfl, rfl, rfl, rfl, ?_⟩
  intro hrun htype hact
  obtain ⟨hs, -⟩ := executeBlock_motor config s block hrun htype
  rw [hs]
  rcases hact with h | h <;> rw [h] <;> exact ⟨rfl, rfl⟩

/-- Witness for C10: with the configured open pose moved to (123, 456), a HOME
block dispatched from a running state still parks the cached positions at the
origin. -/
theorem claim_C10_witness :
    (executeBlock { DEFAULT_CONFIG with motorAOpenPosition := 123, motorBOpenPosition := 456 }
        seqRunState homeProbeBlock).1.motorAPosition = 0 ∧
    (executeBlock { DEFAULT_CONFIG with motorAOpenPosition := 123, motorBOpenPosition := 456 }
        seqRunState homeProbeBlock).1.motorBPosition = 0 := by
  obtain ⟨-, -, -, -, -, -, -, hexec⟩ :=
    claim_C10_open_home_target_origin
      { DEFAULT_CONFIG with motorAOpenPosition := 123, motorBOpenPosition := 456 }
      0 0 123 456 seqRunState homeProbeBlock
  exact hexec rfl rfl (Or.inr rfl)

lemma executeBlock_no_fan_command (config : SimulationConfig) (s : AppState)
    (block : TimelineBlock) :
    (executeBlock config s block).2.filter isFanCommand = [] := by
  rcases block with ⟨bid, bty, bact, bst, bdur, bcfg⟩
  unfold executeBlock
  cases bty <;> dsimp only <;> split_ifs <;> rfl

/-- C3 counterexample: with the second block of an auto-sequence still armed,
a failed movement dispatch of the first block leaves the running flag true,
leaves the machine state at the block's pose (OPEN, not IDLE), keeps the next
block's timer, and the next block still dispatches — the run does NOT abort,
refuting the claim on this input. -/
theorem claim_C3_counterexample :
    (motorDispatchCatchHandler
        (executeBlock DEFAULT_CONFIG seqRunState seqBlockOpen).1).isRunning = true ∧
    (motorDispatchCatchHandler
        (executeBlock DEFAULT_CONFIG seqRunState seqBlockOpen).1).machineState = "OPEN" ∧
    (motorDispatchCatchHandler
        (executeBlock DEFAULT_CONFIG seqRunState seqBlockOpen).1).machineState ≠
      MachineState.IDLE ∧
    mapGet "m2" (motorDispatchCatchHandler
        (executeBlock DEFAULT_CONFIG seqRunState seqBlockOpen).1).timeouts =
      some (seqBlockClose, 2000) ∧
    (executeBlock DEFAULT_CONFIG
        (motorDispatchCatchHandler (executeBlock DEFAULT_CONFIG seqRunState seqBlockOpen).1)
        seqBlockClose).2 = [Command.setState "CLOSE"] :=
  ⟨rfl, rfl, by decide, rfl, rfl⟩

/-- C3 amended: a rejected movement dispatch during an active auto-sequence is
only logged (the `catch` handler is a state no-op): the running flag stays
true, the armed timers are untouched, and a subsequent scheduled movement
block still executes normally — no abort and no transition to Idle occurs
(the same policy as for manual-control failures). -/
theorem claim_C3_movement_failure_ignored (config : SimulationConfig) (s : AppState)
    (block next : TimelineBlock) (hrun : s.isRunning = true) (hnext : next.type = .motor) :
    motorDispatchCatchHandler (executeBlock config s block).1 = (executeBlock config s block).1 ∧
    (motorDispatchCatchHandler (executeBlock config s block).1).isRunning = true ∧
    (motorDispatchCatchHandler (executeBlock config s block).1).timeouts = s.timeouts ∧
    (executeBlock config (motorDispatchCatchHandler (executeBlock config s block).1)
        next).1.machineState = next.action := by
  obtain ⟨hr, ht, -, -⟩ := executeBlock_preserves config s block
  have hrun1 : (executeBlock config s block).1.isRunning = true := by rw [hr, hrun]
  refine ⟨rfl, ?_, ?_, ?_⟩
  · show (executeBlock config s block).1.isRunning = true
    exact hrun1
  · exact ht
  · obtain ⟨hs2, -⟩ := executeBlock_motor config (executeBlock config s block).1 next hrun1 hnext
    show (executeBlock config (executeBlock config s block).1 next).1.machineState = next.action
    rw [hs2]

/-- Witness for the amended C3: concrete two-block sequence where the second
block still executes after the first dispatch fails. -/
theorem claim_C3_witness :
    (executeBlock DEFAULT_CONFIG
        (motorDispatchCatchHandler (executeBlock DEFAULT_CONFIG stopProbeState seqBlockOpen).1)
        seqBlockClose).1.machineState = "CLOSE" :=
  (claim_C3_movement_failure_ignored DEFAULT_CONFIG stopProbeState seqBlockOpen seqBlockClose
    rfl rfl).2.2.2

/-- C9: the player never dispatches fan-track blocks (executing one is a
state- and command-free no-op, and no block execution ever emits a fan
command); instead, when the global configuration has the fan enabled at run
start (and the Pi is reachable), run start issues exactly one immediate
fan-enable command carrying the configured fan speed, independent of any fan
blocks in the timeline; with the fan disabled, run start issues no command at
all. -/
theorem claim_C9_global_fan_control (config : SimulationConfig) (s : AppState)
    (block : TimelineBlock) :
    (block.type = .fan → executeBlock config s block = (s, [])) ∧
    (executeBlock config s block).2.filter isFanCommand = [] ∧
    (config.loopTimeline ≠ [] → config.fanEnabled = true → s.piIp ≠ "" →
      s.isPiOnline = true →
      (toggleRunStart config s).2 =
        if (flattenAllBlocks config.loopTimeline).isEmpty then []
        else [Command.updateConfigFan true (some config.fanSpeed)]) ∧
    (config.fanEnabled = false → (toggleRunStart config s).2 = []) := by
  refine ⟨fun h => executeBlock_fan config s block h,
    executeBlock_no_fan_command config s block, ?_, ?_⟩
  · intro htl hfan hip honline
    unfold toggleRunStart
    rw [if_neg (by simpa using htl)]
    dsimp only
    split
    · rfl
    · rw [if_pos ⟨hfan, hip, honline⟩]
  · intro hfan
    unfold toggleRunStart
    dsimp only
    split
    · rfl
    · split
      · rfl
      · simp [hfan]

/-- Witness for C9: executing the default timeline's fan-start block is a
no-op, and starting the default (fan-enabled) run from an online state issues
exactly the single fan-enable command at speed 100. -/
theorem claim_C9_witness :
    executeBlock DEFAULT_CONFIG schedulerProbeState fanProbeBlock = (schedulerProbeState, []) ∧
    (toggleRunStart DEFAULT_CONFIG schedulerProbeState).2 =
      [Command.updateConfigFan true (some 100)] := by
  obtain ⟨hblk, -, hstart, -⟩ :=
    claim_C9_global_fan_control DEFAULT_CONFIG schedulerProbeState fanProbeBlock
  refine ⟨hblk rfl, ?_⟩
  rw [hstart (by decide) rfl (by decide) rfl]
  rfl

/-! ### Supporting lemmas: sendRemoteCommand and stopSimulation -/

lemma sendRemoteCommand_preserves (s : AppState) (state : String)
    (resp : Option SetStateResponse) :
    (sendRemoteCommand s state resp).1.isRunning = s.isRunning ∧
    (sendRemoteCommand s state resp).1.timeouts = s.timeouts ∧
    (sendRemoteCommand s state resp).1.currentPlaybackTime = s.currentPlaybackTime ∧
    (sendRemoteCommand s state resp).1.piIp = s.piIp ∧
    (sendRemoteCommand s state resp).1.smokeRunning = s.smokeRunning := by
  rcases resp with _ | ⟨succ, ma, mb, md, fr⟩
  · unfold sendRemoteCommand
    split_ifs <;> exact ⟨rfl, rfl, rfl, rfl, rfl⟩
  · unfold sendRemoteCommand
    split_ifs <;>
      cases succ <;> rcases ma with _ | a <;> rcases mb with _ | b <;>
        rcases md with _ | d <;> rcases fr with _ | f <;>
          exact ⟨rfl, rfl, rfl, rfl, rfl⟩

lemma sendRemoteCommand_cmds (s : AppState) (state : String)
    (resp : Option SetStateResponse) (h : s.piIp ≠ "") :
    (sendRemoteCommand s state resp).2.1 = [Command.setState state] ∧
    (sendRemoteCommand s state resp).2.2 = resp.isNone := by
  rcases resp with _ | data <;> unfold sendRemoteCommand <;> rw [if_neg h] <;>
    exact ⟨rfl, rfl⟩

lemma stopSimulation_resets (s : AppState) (skipOpen smokeStopFails fanStopFails : Bool)
    (openResp : Option SetStateResponse) :
    (stopSimulation s skipOpen smokeStopFails fanStopFails openResp).1.isRunning = false ∧
    (stopSimulation s skipOpen smokeStopFails fanStopFails openResp).1.timeouts = [] ∧
    (stopSimulation s skipOpen smokeStopFails fanStopFails openResp).1.currentPlaybackTime
      = 0 := by
  unfold stopSimulation
  dsimp only
  split_ifs <;>
    first
      | exact ⟨rfl, rfl, rfl⟩
      | (dsimp only
         exact ⟨by rw [(sendRemoteCommand_preserves _ _ _).1],
                by rw [(sendRemoteCommand_preserves _ _ _).2.1],
                by rw [(sendRemoteCommand_preserves _ _ _).2.2.1]⟩)

/-- C8 counterexample: on a stop over a reachable Pi whose home-return command
RESOLVES, the local machine state settles to OPEN, not IDLE, refuting the
claim's "settles to Idle" on this input (the run flag and playhead are still
cleared). -/
theorem claim_C8_counterexample :
    (stopSimulation stopProbeState false false false (some openOkResponse)).1.machineState =
      MachineState.OPEN ∧
    (stopSimulation stopProbeState false false false
        (some openOkResponse)).1.machineState ≠ MachineState.IDLE :=
  ⟨rfl, by decide⟩

/-- C8 amended: on a stop that does not skip the home return, over a reachable
Pi, the fogger (when running) and the blower are commanded off, in that order,
before the OPEN home-return command; the run flag is false and the playhead is
zero; and once the home-return command resolves the machine state is set to
OPEN (the home pose label) — only when it fails does the state fall back to
IDLE.  Best-effort degradation (reaching a stopped local state with the run
flag down) holds in both outcomes. -/
theorem claim_C8_stop_shutdown_sequence (s : AppState)
    (smokeStopFails fanStopFails : Bool) (openResp : Option SetStateResponse)
    (honline : s.piIp ≠ "" ∧ s.isPiOnline = true) :
    (stopSimulation s false smokeStopFails fanStopFails openResp).1.isRunning = false ∧
    (stopSimulation s false smokeStopFails fanStopFails openResp).1.currentPlaybackTime = 0 ∧
    (stopSimulation s false smokeStopFails fanStopFails openResp).2 =
      (if s.smokeRunning then [Command.controlSmoke "stop" none none] else []) ++
        [Command.updateConfigFan false none] ++ [Command.setState "OPEN"] ∧
    (openResp = none →
      (stopSimulation s false smokeStopFails fanStopFails openResp).1.machineState =
        MachineState.IDLE) ∧
    (openResp ≠ none →
      (stopSimulation s false smokeStopFails fanStopFails openResp).1.machineState =
        MachineState.OPEN) := by
  obtain ⟨hrun, -, hplay⟩ := stopSimulation_resets s false smokeStopFails fanStopFails openResp
  refine ⟨hrun, hplay, ?_, ?_, ?_⟩
  · rcases openResp with _ | data <;>
      cases smokeStopFails <;> cases fanStopFails <;>
        by_cases hsm : s.smokeRunning = true <;>
          simp [stopSimulation, sendRemoteCommand, honline.1, honline.2, hsm]
  · intro h
    subst h
    cases smokeStopFails <;> cases fanStopFails <;>
      by_cases hsm : s.smokeRunning = true <;>
        simp [stopSimulation, sendRemoteCommand, honline.1, honline.2, hsm, MachineState.IDLE]
  · intro h
    rcases openResp with _ | data
    · exact absurd rfl h
    · cases smokeStopFails <;> cases fanStopFails <;>
        by_cases hsm : s.smokeRunning = true <;>
          simp [stopSimulation, sendRemoteCommand, honline.1, honline.2, hsm, MachineState.OPEN]

/-- Witness for the amended C8: a concrete online stop with the smoke machine
running and a failing home return reaches IDLE with the full off-before-home
command sequence. -/
theorem claim_C8_witness :
    (stopSimulation stopProbeState false false false none).1.machineState =
      MachineState.IDLE ∧
    (stopSimulation stopProbeState false false false none).2 =
      [Command.controlSmoke "stop" none none, Command.updateConfigFan false none,
       Command.setState "OPEN"] := by
  obtain ⟨-, -, hcmds, hidle, -⟩ :=
    claim_C8_stop_shutdown_sequence stopProbeState false false none (by decide)
  refine ⟨hidle rfl, ?_⟩
  rw [hcmds]
  rfl

lemma timerStep_stopped (config : SimulationConfig) (s : AppState) (acc : List Command)
    (ev : TimerEvent) (hrun : s.isRunning = false) (htim : s.timeouts = []) :
    timerStep config (s, acc) ev = (s, acc) := by
  cases ev with
  | fireBlock block =>
    unfold timerStep fireBlockTimer
    dsimp only
    rw [executeBlock_not_running config s block hrun]
    dsimp only
    rw [htim]
    dsimp only [mapDelete]
    rw [List.append_nil]
    have hs : { s with timeouts := ([] : List (String × TimelineBlock × ℚ)) } = s := by
      rw [← htim]
    rw [hs]
  | tick blocks maxEnd =>
    unfold timerStep playbackTick
    dsimp only
    rw [if_pos (by simp [hrun])]

/-- C1: after `stopSimulation` returns, the running flag is down and the
timeout map is empty, and NO sequence of deferred callbacks armed earlier —
per-block timers firing (each of which re-checks the running flag inside
`executeBlock`) or coarse playback ticks — changes the state or dispatches any
command: the fold over any event list stays at the stopped state with an empty
command log. -/
theorem claim_C1_cancellation_completeness (config : SimulationConfig) (s : AppState)
    (skipOpen smokeStopFails fanStopFails : Bool) (openResp : Option SetStateResponse)
    (events : List TimerEvent) :
    (stopSimulation s skipOpen smokeStopFails fanStopFails openResp).1.isRunning = false ∧
    (stopSimulation s skipOpen smokeStopFails fanStopFails openResp).1.timeouts = [] ∧
    events.foldl (timerStep config)
        ((stopSimulation s skipOpen smokeStopFails fanStopFails openResp).1, []) =
      ((stopSimulation s skipOpen smokeStopFails fanStopFails openResp).1, []) := by
  obtain ⟨hrun, htim, -⟩ := stopSimulation_resets s skipOpen smokeStopFails fanStopFails openResp
  refine ⟨hrun, htim, ?_⟩
  induction events with
  | nil => rfl
  | cons ev rest ih =>
    rw [List.foldl_cons, timerStep_stopped config _ [] ev hrun htim]
    exact ih

/-! ### Supporting lemmas: the timeout map and timer re-arming -/

lemma mapGet_mapSet_self {α : Type} (k : String) (v : α) (m : List (String × α)) :
    mapGet k (mapSet k v m) = some v := by
  induction m with
  | nil => simp [mapSet, mapGet]
  | cons p rest ih =>
    obtain ⟨k', v'⟩ := p
    by_cases h : k' = k
    · subst h
      simp [mapSet, mapGet]
    · simp only [mapSet, if_neg h, mapGet, ih]

lemma mapGet_mapSet_ne {α : Type} (k k' : String) (v : α) (m : List (String × α))
    (h : k' ≠ k) : mapGet k (mapSet k' v m) = mapGet k m := by
  induction m with
  | nil => simp [mapSet, mapGet, h]
  | cons p rest ih =>
    obtain ⟨k2, v2⟩ := p
    show mapGet k (if k2 = k' then (k', v) :: rest else (k2, v2) :: mapSet k' v rest) =
      mapGet k ((k2, v2) :: rest)
    by_cases h2 : k2 = k'
    · rw [if_pos h2]
      show (if k' = k then some v else mapGet k rest) =
        if k2 = k then some v2 else mapGet k rest
      rw [if_neg h, if_neg (fun he => h (h2.symm.trans he))]
    · rw [if_neg h2]
      show (if k2 = k then some v2 else mapGet k (mapSet k' v rest)) =
        if k2 = k then some v2 else mapGet k rest
      rw [ih]

lemma mapGet_armTimers_notMem (blocks : List (TimelineBlock × ℚ)) (k : String) :
    ∀ m : List (String × TimelineBlock × ℚ), k ∉ blocks.map (fun p => p.1.id) →
      mapGet k (armTimers blocks m) = mapGet k m := by
  induction blocks with
  | nil => intro m h; rfl
  | cons q rest ih =>
    intro m h
    rw [List.map_cons, List.mem_cons, not_or] at h
    obtain ⟨h1, h2⟩ := h
    show mapGet k (armTimers rest (mapSet q.1.id (q.1, q.2 * 1000) m)) = mapGet k m
    rw [ih _ h2, mapGet_mapSet_ne _ _ _ _ (fun he => h1 he.symm)]

lemma mapGet_armTimers_self (blocks : List (TimelineBlock × ℚ)) :
    ∀ m : List (String × TimelineBlock × ℚ),
      (blocks.map (fun p => p.1.id)).Nodup →
      ∀ p ∈ blocks, mapGet p.1.id (armTimers blocks m) = some (p.1, p.2 * 1000) := by
  induction blocks with
  | nil => intro m hnd p hp; cases hp
  | cons q rest ih =>
    intro m hnd p hp
    rw [List.map_cons, List.nodup_cons] at hnd
    obtain ⟨hqnotin, hndrest⟩ := hnd
    rcases List.mem_cons.mp hp with rfl | hmem
    · show mapGet p.1.id (armTimers rest (mapSet p.1.id (p.1, p.2 * 1000) m)) =
        some (p.1, p.2 * 1000)
      rw [mapGet_armTimers_notMem rest _ _ hqnotin, mapGet_mapSet_self]
    · show mapGet p.1.id (armTimers rest (mapSet q.1.id (q.1, q.2 * 1000) m)) =
        some (p.1, p.2 * 1000)
      exact ih _ hndrest p hmem

/-- C6: while a run is active, a coarse 100 ms tick that advances the playhead
to at least the loop duration resets the playhead to zero and re-arms one
timer per block keyed by the block's id with delay `startTime * 1000` ms
relative to the fresh zero (the loop-repeat mechanism); a tick after
cancellation leaves the state untouched, re-arming nothing. -/
theorem claim_C6_loop_restart (loopAllBlocks : List (TimelineBlock × ℚ)) (maxEndTime : ℚ)
    (s : AppState) :
    (s.isRunning = false → playbackTick loopAllBlocks maxEndTime s = s) ∧
    (s.isRunning = true → maxEndTime ≤ s.currentPlaybackTime + 1/10 →
      (playbackTick loopAllBlocks maxEndTime s).currentPlaybackTime = 0 ∧
      (playbackTick loopAllBlocks maxEndTime s).timeouts =
        armTimers loopAllBlocks s.timeouts ∧
      ((loopAllBlocks.map (fun p => p.1.id)).Nodup →
        ∀ p ∈ loopAllBlocks,
          mapGet p.1.id (playbackTick loopAllBlocks maxEndTime s).timeouts =
            some (p.1, p.2 * 1000))) := by
  constructor
  · intro h
    unfold playbackTick
    rw [if_pos (by simp [h])]
  · intro hrun hend
    have htick : playbackTick loopAllBlocks maxEndTime s =
        { s with currentPlaybackTime := 0,
                 timeouts := armTimers loopAllBlocks s.timeouts } := by
      unfold playbackTick
      rw [if_neg (by simp [hrun])]
      dsimp only
      rw [if_pos hend, if_pos hrun]
    refine ⟨by rw [htick], by rw [htick], ?_⟩
    intro hnd p hp
    rw [htick]
    exact mapGet_armTimers_self loopAllBlocks s.timeouts hnd p hp

/-- Witness for C6: one armed block at offset 2 s, a running state whose
playhead reaches the loop end on this tick — the playhead resets and the
block's timer is re-armed 2000 ms out. -/
theorem claim_C6_witness :
    (playbackTick [(seqBlockClose, 2)] (1/10)
        { schedulerProbeState with isRunning := true }).currentPlaybackTime = 0 ∧
    mapGet "m2" (playbackTick [(seqBlockClose, 2)] (1/10)
        { schedulerProbeState with isRunning := true }).timeouts =
      some (seqBlockClose, 2000) := by
  obtain ⟨-, h⟩ := claim_C6_loop_restart [(seqBlockClose, 2)] (1/10)
    { schedulerProbeState with isRunning := true }
  obtain ⟨hplay, -, hget⟩ := h rfl (by norm_num [schedulerProbeState])
  refine ⟨hplay, ?_⟩
  have hm := hget (by decide) (seqBlockClose, 2) (by decide)
  have h2 : (2 : ℚ) * 1000 = 2000 := by norm_num
  rw [← h2]
  exact hm

/-- C7 counterexample: a smoke-kind block stored in the motors track is NOT
filtered by the scheduler — it appears in the flattened schedule, `toggleRun`
arms a timer for it, and executing it dispatches a smoke command — refuting
"never appears in the flattened, time-sorted schedule that the player
executes" for a timeline (e.g. one loaded from the server after mount) that
reaches the scheduler with a mismatched block. -/
theorem claim_C7_counterexample :
    blockMatchesTrack TimelineTrackType.motors misplacedSmokeBlock = false ∧
    (misplacedSmokeBlock, (1 : ℚ)) ∈ flattenAllBlocks misplacedConfig.loopTimeline ∧
    mapGet "sb1" (toggleRunStart misplacedConfig schedulerProbeState).1.timeouts =
      some (misplacedSmokeBlock, 1 * 1000) ∧
    ∃ i d, (executeBlock misplacedConfig { schedulerProbeState with isRunning := true }
        misplacedSmokeBlock).2 = [Command.controlSmoke "start" (some i) (some d)] := by
  refine ⟨rfl, by decide, ?_, ⟨_, _, rfl⟩⟩
  unfold toggleRunStart
  rw [if_neg (by decide)]
  dsimp only
  rw [show flattenAllBlocks misplacedConfig.loopTimeline =
      [(misplacedSmokeBlock, (1 : ℚ))] from rfl]
  rw [if_neg (by decide)]
  rw [List.mergeSort_singleton]
  rfl

/-- C7 amended: the mount-time cleanup effect (and the render-time filter,
which uses the same `blockMatchesTrack` test) does drop mismatched blocks, so
a cleaned timeline contributes only kind-matching blocks to the flattened
schedule; but the scheduler's own flattening performs no kind filtering —
every block of every track, mismatched or not, appears in the flattened
schedule it executes. -/
theorem claim_C7_track_typing (timeline : List TimelineTrack) :
    (∀ track ∈ cleanupTimeline timeline, ∀ b ∈ track.blocks,
      blockMatchesTrack track.type b = true) ∧
    (∀ track ∈ timeline, ∀ b ∈ track.blocks,
      (b, b.startTime) ∈ flattenAllBlocks timeline) ∧
    (∀ p ∈ flattenAllBlocks (cleanupTimeline timeline),
      ∃ track ∈ cleanupTimeline timeline, p.1 ∈ track.blocks ∧
        blockMatchesTrack track.type p.1 = true) := by
  have hclean : ∀ track ∈ cleanupTimeline timeline, ∀ b ∈ track.blocks,
      blockMatchesTrack track.type b = true := by
    intro track htrack b hb
    unfold cleanupTimeline at htrack
    rw [List.mem_map] at htrack
    obtain ⟨tr0, -, rfl⟩ := htrack
    exact (List.mem_filter.mp hb).2
  refine ⟨hclean, ?_, ?_⟩
  · intro track htrack b hb
    unfold flattenAllBlocks
    rw [List.mem_flatMap]
    exact ⟨track, htrack, List.mem_map_of_mem _ hb⟩
  · intro p hp
    unfold flattenAllBlocks at hp
    rw [List.mem_flatMap] at hp
    obtain ⟨track, htrack, hmem⟩ := hp
    rw [List.mem_map] at hmem
    obtain ⟨b, hb, rfl⟩ := hmem
    exact ⟨track, htrack, hb, hclean track htrack b hb⟩

/-- Witness for the amended C7: on the misplaced-block timeline, the scheduler
flattening contains the mismatched block, while the cleaned timeline passes
the kind check everywhere. -/
theorem claim_C7_witness :
    (misplacedSmokeBlock, misplacedSmokeBlock.startTime) ∈
      flattenAllBlocks misplacedTimeline ∧
    ∀ track ∈ cleanupTimeline misplacedTimeline, ∀ b ∈ track.blocks,
      blockMatchesTrack track.type b = true := by
  obtain ⟨h1, h2, -⟩ := claim_C7_track_typing misplacedTimeline
  refine ⟨?_, h1⟩
  exact h2 (TimelineTrack.mk "track-motors" .motors "Motors" [misplacedSmokeBlock])
    (by decide) misplacedSmokeBlock (by decide)
